import Mathlib

/-!
# Shallow embedding of the Mattermost components library (dist/index.esm.js)

This file embeds the state-bearing logic of the library's hooks and
components — the `useFocusTrap` global stack and keydown handler, the
`useStackedModal` backdrop coordinator, `FooterPagination`'s pagination
math, `useMeasurePunchouts`' bounding-box loop, `TourTipBackdrop`'s
clip-path construction, and the `GenericModal`/`TourTip` optional-callback
handlers — and proves the specification's claims about them.

DOM elements are modelled by numeric ids, the document by association
lists, and JavaScript numbers by `Int` (with the explicit
`Number.MAX_SAFE_INTEGER` / `Number.MIN_SAFE_INTEGER` sentinels where the
source uses them).
-/

namespace Spec2Proof

/-! ## Focus trap (`useFocusTrap`) -/

/-- A keyboard event as seen by the focus-trap keydown handler. -/
structure KeyEvent where
  key : String
  shiftKey : Bool
deriving DecidableEq

/-- The per-trap state captured by the `useFocusTrap` effect closure: the
`trapActive` flag, the container element (a numeric id), and the cached
focusable elements (`focusableElementsRef.current`, ids in DOM order). -/
structure TrapState where
  trapActive : Bool
  container : Nat
  focusableElements : List Nat
deriving DecidableEq

/-- `activateFocusTrap`'s effect on the global `activeFocusTraps` stack:
`activeFocusTraps.push(container)` appends the container at the end (the
end of the list is the top of the stack). -/
def activateFocusTrap (stack : List Nat) (container : Nat) : List Nat :=
  stack ++ [container]

/-- The stack effect of the `useFocusTrap` cleanup when `trapActive` was
set: `activeFocusTraps.indexOf(container)` finds the first occurrence and
`splice(index, 1)` removes it; when the container is absent
(`index === -1`) the stack is left unchanged. This is `List.erase`. -/
def cleanupFocusTrap (stack : List Nat) (container : Nat) : List Nat :=
  stack.erase container

/-- The focus-trap `handleKeyDown` handler. `none` means the handler
returned without effect (the browser's default Tab behaviour applies);
`some el` means the handler called `e.preventDefault()` and moved focus to
element `el`. Mirrors the source: non-Tab keys are ignored; the handler
returns unless `trapActive` is set and this trap's container is the last
element of `activeFocusTraps`; an empty cached element list returns; then
Shift+Tab on the first cached element wraps to the last, and plain Tab on
the last wraps to the first. -/
def handleKeyDown (trap : TrapState) (stack : List Nat)
    (activeElement : Option Nat) (e : KeyEvent) : Option Nat :=
  if e.key ≠ "Tab" then
    none
  else if ¬trap.trapActive ∨ stack.getLast? ≠ some trap.container then
    none
  else
    match trap.focusableElements.head?, trap.focusableElements.getLast? with
    | some firstElement, some lastElement =>
      if e.shiftKey ∧ activeElement = some firstElement then
        some lastElement
      else if ¬e.shiftKey ∧ activeElement = some lastElement then
        some firstElement
      else
        none
    | _, _ => none

/-- An event in the lifetime of the focus traps: the trap with identity
`tid` activating on container `c`, or that trap's cleanup running. -/
inductive FTEvent where
  | activate (tid : Nat) (c : Nat)
  | deactivate (tid : Nat) (c : Nat)
deriving DecidableEq

/-- The code's stack transition for one event. -/
def codeStep (stack : List Nat) : FTEvent → List Nat
  | .activate _ c => activateFocusTrap stack c
  | .deactivate _ c => cleanupFocusTrap stack c

/-- The `activeFocusTraps` stack after a trace of events, starting empty. -/
def codeRun (events : List FTEvent) : List Nat :=
  events.foldl codeStep []

/-- Specification-side state: the currently-active traps as
`(identity, container)` pairs in activation order. Deactivation removes
the trap by its identity, not by container value. -/
def specStep (active : List (Nat × Nat)) : FTEvent → List (Nat × Nat)
  | .activate tid c => active ++ [(tid, c)]
  | .deactivate tid _ => active.filter (fun p => p.1 != tid)

/-- The specification-side active-trap list after a trace of events. -/
def specRun (events : List FTEvent) : List (Nat × Nat) :=
  events.foldl specStep []

/-- Well-formedness of an event trace from a given active set: each
activation uses a fresh trap identity and a container held by no currently
active trap (distinct simultaneously-active containers), and each
deactivation is the cleanup of a currently active trap. -/
def wfTrace : List (Nat × Nat) → List FTEvent → Bool
  | _, [] => true
  | active, .activate tid c :: rest =>
      active.all (fun p => p.1 != tid && p.2 != c) &&
      wfTrace (specStep active (.activate tid c)) rest
  | active, .deactivate tid c :: rest =>
      active.contains (tid, c) &&
      wfTrace (specStep active (.deactivate tid c)) rest

/-! ## Stacked modal (`useStackedModal`) -/

/-- Bootstrap's default modal z-index, from the source. -/
def BASE_MODAL_Z_INDEX : Nat := 1050

/-- Bootstrap's default backdrop z-index, from the source. -/
def BASE_BACKDROP_Z_INDEX : Nat := 1040

/-- Increment for each stacked modal level, from the source. -/
def Z_INDEX_INCREMENT : Nat := 10

/-- The inline style of a DOM `.modal-backdrop` element. `none` models a
property that is not set (the empty value in the element's style object). -/
structure BackdropStyle where
  zIndex : Option String
  opacity : Option String
  transition : Option String
deriving DecidableEq

/-- JavaScript `s || d` on a style-property read: an unset property and the
empty string are falsy and fall through to the default. -/
def jsOrDefault (s : Option String) (d : String) : String :=
  match s with
  | none => d
  | some v => if v = "" then d else v

/-- JavaScript truthiness of a possibly-unset string (`if (ref.current)`). -/
def jsTruthy (s : Option String) : Bool :=
  match s with
  | none => false
  | some v => v != ""

/-- The state of the `useStackedModal` hook: the `shouldRenderBackdrop`
state, the `zIndexes` state, and the three refs (`backdropRef`, modelled as
an index into the document's backdrop list, and the two saved-style refs). -/
structure StackedModalState where
  shouldRenderBackdrop : Bool
  zIndexModal : Nat
  zIndexBackdrop : Nat
  backdropRef : Option Nat
  originalBackdropZIndex : Option String
  originalBackdropOpacity : Option String
deriving DecidableEq

/-- Initial hook state: `useState(!isStacked)` for `shouldRenderBackdrop`,
base z-indexes, and null refs. -/
def initialStackedModalState (isStacked : Bool) : StackedModalState :=
  ⟨!isStacked, BASE_MODAL_Z_INDEX, BASE_BACKDROP_Z_INDEX, none, none, none⟩

/-- The transition string the hook writes for a smooth opacity change. -/
def fadeTransition : String := "opacity 150ms ease-in-out"

/-- `adjustBackdrop`, acting on the list of `.modal-backdrop` elements in
the document (in DOM order, so `backdrops[backdrops.length - 1]` — the
parent modal's backdrop — is the last entry) and on the hook state. It
sets `shouldRenderBackdrop`, computes the stacked z-indexes, saves the
parent backdrop's z-index (`|| '1040'`) and opacity (`|| '0.5'`) in the
refs, and writes the fade transition and opacity `'0'` onto the parent
backdrop. With no backdrop in the document only the state updates run. -/
def adjustBackdrop (dom : List BackdropStyle) (st : StackedModalState) :
    List BackdropStyle × StackedModalState :=
  let st1 := { st with
    shouldRenderBackdrop := true
    zIndexModal := BASE_MODAL_Z_INDEX + Z_INDEX_INCREMENT
    zIndexBackdrop := BASE_MODAL_Z_INDEX + Z_INDEX_INCREMENT - 1 }
  match dom.getLast? with
  | none => (dom, st1)
  | some parentBackdrop =>
      let st2 := { st1 with
        backdropRef := some (dom.length - 1)
        originalBackdropZIndex :=
          some (jsOrDefault parentBackdrop.zIndex (toString BASE_BACKDROP_Z_INDEX))
        originalBackdropOpacity := some (jsOrDefault parentBackdrop.opacity "0.5") }
      (dom.set (dom.length - 1)
        { parentBackdrop with transition := some fadeTransition, opacity := some "0" },
       st2)

/-- One run of the `useStackedModal` layout-effect body: a non-stacked
modal returns immediately; a closed stacked modal resets the state; an
open stacked modal runs `adjustBackdrop`. -/
def stackedModalEffect (isStacked isOpen : Bool) (dom : List BackdropStyle)
    (st : StackedModalState) : List BackdropStyle × StackedModalState :=
  if !isStacked then
    (dom, st)
  else if !isOpen then
    (dom, { st with
      shouldRenderBackdrop := false
      zIndexModal := BASE_MODAL_Z_INDEX
      zIndexBackdrop := BASE_BACKDROP_Z_INDEX })
  else
    adjustBackdrop dom st

/-- The layout-effect cleanup: if `backdropRef` holds an element, restore
the saved z-index (when truthy) and — with the fade transition — the saved
opacity (when truthy) onto it, then clear the three refs. -/
def stackedModalCleanup (dom : List BackdropStyle) (st : StackedModalState) :
    List BackdropStyle × StackedModalState :=
  match st.backdropRef with
  | none => (dom, st)
  | some i =>
      let dom1 := match dom[i]? with
        | none => dom
        | some b =>
            let b1 := if jsTruthy st.originalBackdropZIndex then
                { b with zIndex := st.originalBackdropZIndex } else b
            let b2 := if jsTruthy st.originalBackdropOpacity then
                { b1 with transition := some fadeTransition,
                          opacity := st.originalBackdropOpacity } else b1
            dom.set i b2
      (dom1, { st with backdropRef := none,
                       originalBackdropZIndex := none,
                       originalBackdropOpacity := none })

/-- The `modalStyle` the hook returns: `{zIndex: zIndexes.modal}` when
stacked, the empty style otherwise. -/
def stackedModalStyle (isStacked : Bool) (st : StackedModalState) : Option Nat :=
  if isStacked then some st.zIndexModal else none

/-- A full open/close cycle of a stacked modal against a document of
backdrops: the layout effect runs with `isStacked` and `isOpen` true, then
its cleanup runs; the result is the final document. -/
def stackedModalCycle (dom : List BackdropStyle) : List BackdropStyle :=
  let r := stackedModalEffect true true dom (initialStackedModalState true)
  (stackedModalCleanup r.1 r.2).1

/-- Modelled from the `isStacked` prop documentation in generic_modal.d.ts:
"When true, the modal will not render its own backdrop", i.e. the
documented backdrop rendering of a modal is the negation of `isStacked`. -/
def documentedShouldRenderBackdrop (isStacked : Bool) : Bool :=
  !isStacked

/-! ## Footer pagination (`FooterPagination`) -/

/-- The values `FooterPagination` computes and renders: the legend counts
and the disabled flags of the Previous/Next buttons. -/
structure FooterPaginationView where
  startCount : Nat
  endCount : Nat
  totalPages : Nat
  prevDisabled : Bool
  nextDisabled : Bool
deriving DecidableEq

/-- `FooterPagination`'s arithmetic, from the source:
`startCount = page * itemsPerPage`,
`endCount = Math.min(startCount + itemsPerPage, total)`,
`totalPages = Math.trunc((total - 1) / itemsPerPage)`,
`prevDisabled = page <= 0`, `nextDisabled = page >= totalPages`.
The legend shows `startCount + 1` through `endCount` of `total`. -/
def footerPagination (page total itemsPerPage : Nat) : FooterPaginationView :=
  let startCount := page * itemsPerPage
  let endCount := min (startCount + itemsPerPage) total
  let totalPages := (total - 1) / itemsPerPage
  { startCount := startCount
    endCount := endCount
    totalPages := totalPages
    prevDisabled := decide (page ≤ 0)
    nextDisabled := decide (page ≥ totalPages) }

/-! ## Punch-out measurement (`useMeasurePunchouts`) -/

/-- A `DOMRect` as returned by `getBoundingClientRect`, with integer
coordinates. -/
structure DomRect where
  x : Int
  y : Int
  width : Int
  height : Int
deriving DecidableEq

/-- The document, as an association from element ids (naturals) to client
rectangles; an absent id models `document.getElementById` returning null. -/
abbrev Doc := List (Nat × DomRect)

/-- `document.getElementById(id)?.getBoundingClientRect()`. -/
def getElementRect (doc : Doc) (i : Nat) : Option DomRect :=
  (doc.find? (fun p => p.1 == i)).map Prod.snd

/-- `Number.MAX_SAFE_INTEGER`. -/
def MAX_SAFE_INTEGER : Int := 2 ^ 53 - 1

/-- `Number.MIN_SAFE_INTEGER`. -/
def MIN_SAFE_INTEGER : Int := -(2 ^ 53 - 1)

/-- The optional offset argument of `useMeasurePunchouts`. -/
structure PunchOutOffset where
  x : Int
  y : Int
  width : Int
  height : Int
deriving DecidableEq

/-- The pixel-string rectangle `useMeasurePunchouts` returns (the `Props`
type of useMeasurePunchouts.d.ts). -/
structure PunchOutProps where
  x : String
  y : String
  width : String
  height : String
deriving DecidableEq

/-- Serialization of a coordinate into the template string `` `${v}px` ``. -/
def intPx (n : Int) : String := toString n ++ "px"

/-- The `for` loop of `channelPunchout`: walks `elementIds`, returns `none`
(null) as soon as an id has no rectangle, and otherwise narrows the four
accumulators exactly as the source's `if` statements do. -/
def measureLoop (doc : Doc) : List Nat → Int → Int → Int → Int →
    Option (Int × Int × Int × Int)
  | [], minX, minY, maxX, maxY => some (minX, minY, maxX, maxY)
  | i :: rest, minX, minY, maxX, maxY =>
      match getElementRect doc i with
      | none => none
      | some r =>
          measureLoop doc rest
            (if r.x < minX then r.x else minX)
            (if r.y < minY then r.y else minY)
            (if r.x + r.width > maxX then r.x + r.width else maxX)
            (if r.y + r.height > maxY then r.y + r.height else maxY)

/-- The `channelPunchout` computation of `useMeasurePunchouts`: the loop
starts from the `MAX_SAFE_INTEGER`/`MIN_SAFE_INTEGER` sentinels and the
result is serialized with the optional offset added term by term. -/
def channelPunchout (doc : Doc) (elementIds : List Nat)
    (offset : Option PunchOutOffset) : Option PunchOutProps :=
  match measureLoop doc elementIds MAX_SAFE_INTEGER MAX_SAFE_INTEGER
      MIN_SAFE_INTEGER MIN_SAFE_INTEGER with
  | none => none
  | some (minX, minY, maxX, maxY) =>
      some
        { x := intPx (minX + (match offset with | some o => o.x | none => 0))
          y := intPx (minY + (match offset with | some o => o.y | none => 0))
          width := intPx ((maxX - minX) +
            (match offset with | some o => o.width | none => 0))
          height := intPx ((maxY - minY) +
            (match offset with | some o => o.height | none => 0)) }

/-- All the rectangles of a list of ids, in order; null when any id has
no element (spec-side gathering for `claimedBoundingBox`). -/
def lookupRects (doc : Doc) : List Nat → Option (List DomRect)
  | [] => some []
  | i :: rest =>
      match getElementRect doc i, lookupRects doc rest with
      | some r, some rs => some (r :: rs)
      | _, _ => none

/-- Following the claim's words, for comparison with `channelPunchout`:
the smallest axis-aligned bounding box covering all the elements' client
rectangles (minimum x, minimum y, maximum right, maximum bottom), shifted
by the optional offset and serialized as pixel strings; `none` when the
id list is empty or some element is missing. -/
def claimedBoundingBox (doc : Doc) (elementIds : List Nat)
    (offset : Option PunchOutOffset) : Option PunchOutProps :=
  match lookupRects doc elementIds with
  | none => none
  | some [] => none
  | some (r0 :: rs) =>
      let rects := r0 :: rs
      let mnx := rects.foldl (fun a q => min a q.x) r0.x
      let mny := rects.foldl (fun a q => min a q.y) r0.y
      let mxx := rects.foldl (fun a q => max a (q.x + q.width)) (r0.x + r0.width)
      let mxy := rects.foldl (fun a q => max a (q.y + q.height)) (r0.y + r0.height)
      some
        { x := intPx (mnx + (match offset with | some o => o.x | none => 0))
          y := intPx (mny + (match offset with | some o => o.y | none => 0))
          width := intPx ((mxx - mnx) +
            (match offset with | some o => o.width | none => 0))
          height := intPx ((mxy - mny) +
            (match offset with | some o => o.height | none => 0)) }

/-- A rectangle whose four derived coordinates lie within the JavaScript
safe-integer range, so the loop's sentinels cannot mask it. -/
def InSafeRange (r : DomRect) : Prop :=
  MIN_SAFE_INTEGER ≤ r.x ∧ r.x ≤ MAX_SAFE_INTEGER ∧
  MIN_SAFE_INTEGER ≤ r.y ∧ r.y ≤ MAX_SAFE_INTEGER ∧
  MIN_SAFE_INTEGER ≤ r.x + r.width ∧ r.x + r.width ≤ MAX_SAFE_INTEGER ∧
  MIN_SAFE_INTEGER ≤ r.y + r.height ∧ r.y + r.height ≤ MAX_SAFE_INTEGER

instance (r : DomRect) : Decidable (InSafeRange r) := by
  unfold InSafeRange
  infer_instance

/-! ## Tour tip backdrop (`TourTipBackdrop`) -/

/-- The vertex strings `TourTipBackdrop` pushes when `overlayPunchOut` is
set, in push order (`` `${x} 0%` `` is `x ++ " 0%"`, and so on). -/
def tourTipVertices (x y width height : String) : List String :=
  ["0% 0%", "0% 100%", "100% 100%", "100% 0%",
   x ++ " 0%",
   x ++ " " ++ y,
   "calc(" ++ x ++ " + " ++ width ++ ") " ++ y,
   "calc(" ++ x ++ " + " ++ width ++ ") calc(" ++ y ++ " + " ++ height ++ ")",
   x ++ " calc(" ++ y ++ " + " ++ height ++ ")",
   x ++ " " ++ y,
   x ++ " 0%",
   "0% 0%"]

/-- The backdrop's `clipPath` style: `polygon(...)` over the joined
vertices when there are any, and unset (`undefined`) when the vertex list
is empty — which happens exactly when `overlayPunchOut` is null. -/
def tourTipClipPath (overlayPunchOut : Option PunchOutProps) : Option String :=
  let vertices := match overlayPunchOut with
    | none => []
    | some p => tourTipVertices p.x p.y p.width p.height
  if vertices.length = 0 then none
  else some ("polygon(" ++ String.intercalate ", " vertices ++ ")")

/-- The `TourTipBackdrop` vertex list interpreted as points of a `W × H`
viewport: `"0%"`/`"100%"` denote `0` and `W` (respectively `H`), the
punch-out's `x`, `y`, `width`, `height` — which `useMeasurePunchouts`
produces as `px` strings — denote the pixel values `xv`, `yv`, `wv`, `hv`,
and `calc(a + b)` is addition. Mirrors `tourTipVertices` push for push;
the list is explicitly closed (it ends on its first point). -/
def tourTipVertexPoints (W H xv yv wv hv : Int) : List (Int × Int) :=
  [(0, 0), (0, H), (W, H), (W, 0),
   (xv, 0),
   (xv, yv),
   (xv + wv, yv),
   (xv + wv, yv + hv),
   (xv, yv + hv),
   (xv, yv),
   (xv, 0),
   (0, 0)]

/-- Signed crossing of the horizontal ray going right from `p` with one
polygon edge `a → b`. For an axis-aligned polygon only vertical edges can
cross the ray; the half-open convention at the endpoints makes the count
well defined at vertex heights. Summed along a closed polyline this is the
winding number of the CSS nonzero fill rule. -/
def edgeCrossing (p a b : Int × Int) : Int :=
  match p, a, b with
  | (px, py), (ax, ay), (bx, vy) =>
    if ax = bx ∧ px < ax then
      (if ay ≤ py ∧ py < vy then 1
       else if vy ≤ py ∧ py < ay then -1
       else 0)
    else 0

/-- Winding number of a point with respect to an explicitly closed
polyline (a vertex list whose last point equals its first). -/
def windingOfPath (p : Int × Int) : List (Int × Int) → Int
  | a :: b :: rest => edgeCrossing p a b + windingOfPath p (b :: rest)
  | _ => 0

/-! ## GenericModal and TourTip optional-callback handlers -/

/-- The optional callback props of `GenericModal` (presence only; a
callback's body is opaque to the handlers) together with the two auto-close
flags the handlers read. -/
structure ModalCallbacks where
  onHide : Option Unit
  handleCancel : Option Unit
  handleConfirm : Option Unit
  handleEnterKeyPress : Option Unit
  handleKeydown : Option Unit
  autoCloseOnCancelButton : Bool
  autoCloseOnConfirmButton : Bool
deriving DecidableEq

/-- What a handler run produces: the resulting `showState` and the
callbacks invoked, in order. -/
structure ModalHandlerOutcome where
  showState : Bool
  calls : List String
deriving DecidableEq

/-- JavaScript's guarded optional call `cb?.()`: an absent callee is
skipped without an error. An unguarded call of an absent callback would
throw, which the `Except` error case models; the guard never takes it. -/
def callOptional (name : String) (cb : Option Unit) : Except String (List String) :=
  match cb with
  | some _ => Except.ok [name]
  | none => Except.ok []

/-- `onHideCallback`: `setShowState(false); onHide?.()`. -/
def onHideCallback (cfg : ModalCallbacks) : Except String ModalHandlerOutcome := do
  let c ← callOptional "onHide" cfg.onHide
  pure { showState := false, calls := c }

/-- `handleCancelCallback`: after `event.preventDefault()`, runs
`onHideCallback` when `autoCloseOnCancelButton` is set, then
`handleCancel?.()`. -/
def handleCancelCallback (cfg : ModalCallbacks) (showState : Bool) :
    Except String ModalHandlerOutcome := do
  let r1 ← if cfg.autoCloseOnCancelButton then onHideCallback cfg
           else pure { showState := showState, calls := [] }
  let c2 ← callOptional "handleCancel" cfg.handleCancel
  pure { showState := r1.showState, calls := r1.calls ++ c2 }

/-- `handleConfirmCallback`: after `event.preventDefault()`, runs
`onHideCallback` when `autoCloseOnConfirmButton` is set, then
`handleConfirm?.()`. -/
def handleConfirmCallback (cfg : ModalCallbacks) (showState : Bool) :
    Except String ModalHandlerOutcome := do
  let r1 ← if cfg.autoCloseOnConfirmButton then onHideCallback cfg
           else pure { showState := showState, calls := [] }
  let c2 ← callOptional "handleConfirm" cfg.handleConfirm
  pure { showState := r1.showState, calls := r1.calls ++ c2 }

/-- `onEnterKeyDown`: on Enter, returns early while composing (skipping
`handleKeydown` too), auto-closes only when `handleConfirm` is present AND
`autoCloseOnConfirmButton` is set, then calls `handleEnterKeyPress?.()`;
in all non-composing runs it ends with `handleKeydown?.(event)`. -/
def onEnterKeyDown (cfg : ModalCallbacks) (key : String) (isComposing : Bool)
    (showState : Bool) : Except String ModalHandlerOutcome := do
  if key = "Enter" ∧ isComposing then
    pure { showState := showState, calls := [] }
  else if key = "Enter" then do
    let r1 ← if cfg.handleConfirm.isSome ∧ cfg.autoCloseOnConfirmButton
             then onHideCallback cfg
             else pure { showState := showState, calls := [] }
    let c2 ← callOptional "handleEnterKeyPress" cfg.handleEnterKeyPress
    let c3 ← callOptional "handleKeydown" cfg.handleKeydown
    pure { showState := r1.showState, calls := r1.calls ++ c2 ++ c3 }
  else do
    let c3 ← callOptional "handleKeydown" cfg.handleKeydown
    pure { showState := showState, calls := c3 }

/-- `TourTip`'s `onJump`: `handleJump?.(event, jumpToStep)`. -/
def tourTipOnJump (handleJump : Option Unit) : Except String (List String) :=
  callOptional "handleJump" handleJump

/-- The resulting `showState` of a handler run, `none` on an error. -/
def outcomeShow (r : Except String ModalHandlerOutcome) : Option Bool :=
  match r with
  | .ok o => some o.showState
  | .error _ => none

/-! ## Theorems -/

/-- **C1.** While a focus trap is active on a container (`trapActive` set,
the container on top of the `activeFocusTraps` stack) and at least one
focusable element is cached (`head?`/`getLast?` of the cache are `some`),
Tab keydowns cycle within the container: Tab on the last cached element
prevents the default and focuses the first, Shift+Tab on the first
prevents the default and focuses the last, and any other Tab keydown is
left to the browser's default behaviour (the handler returns `none`). -/
theorem focus_trap_cycles (trap : TrapState) (stack : List Nat) (f l : Nat)
    (hactive : trap.trapActive = true)
    (htop : stack.getLast? = some trap.container)
    (hhead : trap.focusableElements.head? = some f)
    (hlast : trap.focusableElements.getLast? = some l) :
    handleKeyDown trap stack (some l) ⟨"Tab", false⟩ = some f ∧
    handleKeyDown trap stack (some f) ⟨"Tab", true⟩ = some l ∧
    ∀ (ae : Option Nat) (shift : Bool),
      (shift = true → ae ≠ some f) →
      (shift = false → ae ≠ some l) →
      handleKeyDown trap stack ae ⟨"Tab", shift⟩ = none := by
  refine ⟨?_, ?_, ?_⟩
  · simp [handleKeyDown, hactive, htop, hhead, hlast]
  · simp [handleKeyDown, hactive, htop, hhead, hlast]
  · intro ae shift h1 h2
    cases shift with
    | false => simp [handleKeyDown, hactive, htop, hhead, hlast, h2 rfl]
    | true => simp [handleKeyDown, hactive, htop, hhead, hlast, h1 rfl]

/-- Witness for C1 at a trap on container 5 with cached elements
`[1, 2, 3]`. -/
theorem focus_trap_cycles_witness :
    handleKeyDown ⟨true, 5, [1, 2, 3]⟩ [5] (some 3) ⟨"Tab", false⟩ = some 1 ∧
    handleKeyDown ⟨true, 5, [1, 2, 3]⟩ [5] (some 1) ⟨"Tab", true⟩ = some 3 ∧
    handleKeyDown ⟨true, 5, [1, 2, 3]⟩ [5] (some 2) ⟨"Tab", false⟩ = none := by
  have h := focus_trap_cycles ⟨true, 5, [1, 2, 3]⟩ [5] 1 3 rfl rfl rfl rfl
  exact ⟨h.1, h.2.1, h.2.2 (some 2) false (by simp) (by simp)⟩

/-- **C10.** If the topmost active focus trap has an empty cached
focusable-element list, no focus trap handles a Tab keydown: the topmost
trap's handler returns because its cache is empty, and any trap whose
container is not the top of the stack returns at the stack guard. -/
theorem empty_trap_tab_unhandled (top other : TrapState) (stack : List Nat)
    (ae : Option Nat) (shift : Bool)
    (htopc : stack.getLast? = some top.container)
    (hempty : top.focusableElements = [])
    (hother : stack.getLast? ≠ some other.container) :
    handleKeyDown top stack ae ⟨"Tab", shift⟩ = none ∧
    handleKeyDown other stack ae ⟨"Tab", shift⟩ = none := by
  constructor
  · simp [handleKeyDown, hempty]
  · simp [handleKeyDown, hother]

/-- Witness for C10: stack top is container 5 whose trap cached no
elements; the lower trap on container 4 does not handle Tab either. -/
theorem empty_trap_tab_unhandled_witness :
    handleKeyDown ⟨true, 5, []⟩ [4, 5] (some 7) ⟨"Tab", false⟩ = none ∧
    handleKeyDown ⟨true, 4, [7, 8]⟩ [4, 5] (some 7) ⟨"Tab", false⟩ = none :=
  empty_trap_tab_unhandled ⟨true, 5, []⟩ ⟨true, 4, [7, 8]⟩ [4, 5]
    (some 7) false rfl rfl (by decide)

/-- Helper for C2: erasing the container value of an active trap from the
container stack removes the same entry as removing the trap by identity,
provided the identities and the simultaneously active containers are
pairwise distinct. -/
theorem erase_snd_eq_filter (active : List (Nat × Nat)) (t c : Nat)
    (hmem : (t, c) ∈ active)
    (hids : (active.map Prod.fst).Nodup)
    (hcs : (active.map Prod.snd).Nodup) :
    (active.map Prod.snd).erase c =
      (active.filter (fun p => p.1 != t)).map Prod.snd := by
  induction active with
  | nil => cases hmem
  | cons a rest ih =>
    simp only [List.map_cons, List.nodup_cons] at hids hcs
    rcases List.mem_cons.mp hmem with h | h
    · subst h
      have hrest : rest.filter (fun p => p.1 != t) = rest := by
        apply List.filter_eq_self.mpr
        intro p hp
        simp only [bne_iff_ne, ne_eq]
        intro hpt
        apply hids.1
        show t ∈ List.map Prod.fst rest
        rw [← hpt]
        exact List.mem_map_of_mem Prod.fst hp
      simp [hrest]
    · have hc_mem : c ∈ rest.map Prod.snd := List.mem_map_of_mem Prod.snd h
      have ht_mem : t ∈ rest.map Prod.fst := List.mem_map_of_mem Prod.fst h
      have hac : a.2 ≠ c := by
        intro e
        rw [← e] at hc_mem
        exact hcs.1 hc_mem
      have hat : a.1 ≠ t := by
        intro e
        rw [← e] at ht_mem
        exact hids.1 ht_mem
      simp only [List.filter_cons]
      simp only [bne_iff_ne, ne_eq, hat, not_false_iff, if_true, List.map_cons,
        ite_true]
      rw [List.erase_cons, if_neg (by simp [hac])]
      rw [ih h hids.2 hcs.2]

/-- Helper for C2: along a well-formed trace, the code's container stack
is the projection of the specification's active-trap list, and pairwise
distinctness is preserved. -/
theorem code_spec_agree (events : List FTEvent) :
    ∀ active : List (Nat × Nat),
      wfTrace active events = true →
      (active.map Prod.fst).Nodup →
      (active.map Prod.snd).Nodup →
      List.foldl codeStep (active.map Prod.snd) events =
        (List.foldl specStep active events).map Prod.snd := by
  induction events with
  | nil => intro active _ _ _; rfl
  | cons e rest ih =>
    intro active hwf hids hcs
    cases e with
    | activate tid c =>
      simp only [wfTrace, Bool.and_eq_true, List.all_eq_true] at hwf
      obtain ⟨hfresh, hwf'⟩ := hwf
      have hstep : codeStep (active.map Prod.snd) (.activate tid c) =
          (specStep active (.activate tid c)).map Prod.snd := by
        simp [codeStep, specStep, activateFocusTrap]
      rw [List.foldl_cons, List.foldl_cons, hstep]
      refine ih _ hwf' ?_ ?_
      · simp only [specStep, List.map_append, List.nodup_append]
        refine ⟨hids, List.nodup_singleton _, ?_⟩
        intro x hx
        simp only [List.map_cons, List.map_nil, List.mem_singleton]
        rcases List.mem_map.mp hx with ⟨p, hp, rfl⟩
        have := hfresh p hp
        simp only [Bool.and_eq_true, bne_iff_ne, ne_eq] at this
        exact this.1
      · simp only [specStep, List.map_append, List.nodup_append]
        refine ⟨hcs, List.nodup_singleton _, ?_⟩
        intro x hx
        simp only [List.map_cons, List.map_nil, List.mem_singleton]
        rcases List.mem_map.mp hx with ⟨p, hp, rfl⟩
        have := hfresh p hp
        simp only [Bool.and_eq_true, bne_iff_ne, ne_eq] at this
        exact this.2
    | deactivate tid c =>
      simp only [wfTrace, Bool.and_eq_true] at hwf
      obtain ⟨hmem, hwf'⟩ := hwf
      have hmem' : (tid, c) ∈ active := by
        simpa using hmem
      have hstep : codeStep (active.map Prod.snd) (.deactivate tid c) =
          (specStep active (.deactivate tid c)).map Prod.snd := by
        simp only [codeStep, specStep, cleanupFocusTrap]
        exact erase_snd_eq_filter active tid c hmem' hids hcs
      rw [List.foldl_cons, List.foldl_cons, hstep]
      refine ih _ hwf' ?_ ?_
      · exact List.Nodup.sublist (List.Sublist.map _ (List.filter_sublist _)) hids
      · exact List.Nodup.sublist (List.Sublist.map _ (List.filter_sublist _)) hcs

/-- **C2.** Along any well-formed trace of trap activations and cleanups
(fresh identities, simultaneously active containers pairwise distinct,
cleanups of currently active traps), the global `activeFocusTraps` stack
is exactly the list of containers of the active traps in activation
order; activation pushes the container, and a Tab keydown has no effect
through any trap whose container is not the top of the stack. -/
theorem focus_trap_stack (events : List FTEvent)
    (hwf : wfTrace [] events = true) :
    codeRun events = (specRun events).map Prod.snd ∧
    (∀ (stack : List Nat) (c : Nat), activateFocusTrap stack c = stack ++ [c]) ∧
    (∀ (trap : TrapState) (stack : List Nat) (ae : Option Nat) (e : KeyEvent),
      stack.getLast? ≠ some trap.container →
      handleKeyDown trap stack ae e = none) := by
  refine ⟨?_, fun _ _ => rfl, ?_⟩
  · exact code_spec_agree events [] hwf (by simp) (by simp)
  · intro trap stack ae e hne
    simp only [handleKeyDown]
    split
    · rfl
    · rw [if_pos (Or.inr hne)]

/-- Witness for C2: two traps activate, the first deactivates, a third
activates; the code stack matches the active containers `[11, 12]`. -/
theorem focus_trap_stack_witness :
    codeRun [.activate 0 10, .activate 1 11, .deactivate 0 10, .activate 2 12] =
      (specRun [.activate 0 10, .activate 1 11, .deactivate 0 10,
        .activate 2 12]).map Prod.snd ∧
    codeRun [.activate 0 10, .activate 1 11, .deactivate 0 10, .activate 2 12] =
      [11, 12] :=
  ⟨(focus_trap_stack _ (by decide)).1, by decide⟩

/-- **C4.** FooterPagination's pagination math for `p ≥ 0`, `t ≥ 1`,
`k ≥ 1`: the legend shows items `p*k + 1` through `min (p*k + k) t` of
`t`, the last page index is `(t - 1) / k` (truncating division), Previous
is disabled exactly when `p ≤ 0`, and Next is disabled exactly when
`p ≥ (t - 1) / k`. -/
theorem footer_pagination_math (p t k : Nat) (ht : 1 ≤ t) (hk : 1 ≤ k) :
    (footerPagination p t k).startCount + 1 = p * k + 1 ∧
    (footerPagination p t k).endCount = min (p * k + k) t ∧
    (footerPagination p t k).totalPages = (t - 1) / k ∧
    ((footerPagination p t k).prevDisabled = true ↔ p ≤ 0) ∧
    ((footerPagination p t k).nextDisabled = true ↔ (t - 1) / k ≤ p) := by
  refine ⟨rfl, rfl, rfl, ?_, ?_⟩ <;> simp [footerPagination]

/-- Witness for C4 at page 1, 10 items, 4 per page: the legend shows
5–8 of 10, the last page index is 2, and neither button is disabled. -/
theorem footer_pagination_math_witness :
    (footerPagination 1 10 4).startCount + 1 = 1 * 4 + 1 ∧
    (footerPagination 1 10 4).endCount = min (1 * 4 + 4) 10 ∧
    (footerPagination 1 10 4).totalPages = (10 - 1) / 4 ∧
    ((footerPagination 1 10 4).prevDisabled = true ↔ (1 : Nat) ≤ 0) ∧
    ((footerPagination 1 10 4).nextDisabled = true ↔ (10 - 1) / 4 ≤ 1) :=
  footer_pagination_math 1 10 4 (by decide) (by decide)

/-- **C9.** The `useStackedModal` layout effect sets
`shouldRenderBackdrop` to true for an open stacked modal — the stacked
modal renders its own backdrop — and to false when the stacked modal is
closed (the pre-effect initial state is false as well); this is the
opposite of what the GenericModal `isStacked` prop documentation states. -/
theorem stacked_modal_renders_backdrop :
    (∀ (dom : List BackdropStyle) (st : StackedModalState),
      (stackedModalEffect true true dom st).2.shouldRenderBackdrop = true) ∧
    (∀ (dom : List BackdropStyle) (st : StackedModalState),
      (stackedModalEffect true false dom st).2.shouldRenderBackdrop = false) ∧
    (initialStackedModalState true).shouldRenderBackdrop = false ∧
    (∀ (dom : List BackdropStyle) (st : StackedModalState),
      (stackedModalEffect true true dom st).2.shouldRenderBackdrop =
        !documentedShouldRenderBackdrop true) := by
  have hopen : ∀ (dom : List BackdropStyle) (st : StackedModalState),
      (stackedModalEffect true true dom st).2.shouldRenderBackdrop = true := by
    intro dom st
    simp only [stackedModalEffect, Bool.not_true, Bool.false_eq_true, if_false,
      adjustBackdrop]
    cases dom.getLast? <;> simp
  refine ⟨hopen, ?_, rfl, ?_⟩
  · intro dom st
    simp [stackedModalEffect]
  · intro dom st
    rw [hopen dom st]
    rfl

/-- Counterexample to C3 as stated: for a parent backdrop with no inline
z-index, opacity or transition, a full open/close cycle of a stacked
modal does not leave its styles unchanged — the cycle ends with z-index
'1040', opacity '0.5' and the fade transition set explicitly. -/
theorem stacked_modal_cycle_changes_styles :
    stackedModalCycle [⟨none, none, none⟩] ≠ [⟨none, none, none⟩] := by
  decide

/-- Helper: the saved style values are always JavaScript-truthy, because
`|| default` replaces an unset or empty value by a non-empty default. -/
theorem jsTruthy_jsOrDefault (s : Option String) (d : String) (hd : d ≠ "") :
    jsTruthy (some (jsOrDefault s d)) = true := by
  cases s with
  | none => simpa [jsTruthy, jsOrDefault] using hd
  | some v =>
    by_cases hv : v = "" <;> simp [jsTruthy, jsOrDefault, hv, hd]

/-- **C3 (amended).** When a stacked modal opens over a document whose
last `.modal-backdrop` is `b`, the coordinator saves `b`'s z-index (or
'1040' if unset or empty) and opacity (or '0.5'), sets `b`'s opacity to
'0' with the fade transition, and the stacked modal's own style receives
z-index 1060 = 1050 + 10. The close cleanup writes the saved z-index and
opacity back, so the final document differs from the original only at the
parent backdrop: its z-index and opacity are unchanged whenever they were
explicitly set and non-empty before (unset ones end up as the explicit
defaults '1040' and '0.5'), its transition is left as the fade transition,
and no other element's styles are touched. -/
theorem stacked_modal_cycle_spec (dom : List BackdropStyle) (b : BackdropStyle)
    (hlast : dom.getLast? = some b) :
    (stackedModalEffect true true dom
        (initialStackedModalState true)).2.originalBackdropZIndex =
      some (jsOrDefault b.zIndex "1040") ∧
    (stackedModalEffect true true dom
        (initialStackedModalState true)).2.originalBackdropOpacity =
      some (jsOrDefault b.opacity "0.5") ∧
    (stackedModalEffect true true dom (initialStackedModalState true)).1 =
      dom.set (dom.length - 1)
        { b with transition := some fadeTransition, opacity := some "0" } ∧
    stackedModalStyle true
        (stackedModalEffect true true dom (initialStackedModalState true)).2 =
      some 1060 ∧
    stackedModalCycle dom =
      dom.set (dom.length - 1)
        { b with zIndex := some (jsOrDefault b.zIndex "1040"),
                 opacity := some (jsOrDefault b.opacity "0.5"),
                 transition := some fadeTransition } ∧
    (∀ z o, b.zIndex = some z → z ≠ "" → b.opacity = some o → o ≠ "" →
      stackedModalCycle dom =
        dom.set (dom.length - 1) { b with transition := some fadeTransition }) := by
  obtain ⟨bz, bo, bt⟩ := b
  have hlen : dom.length - 1 < dom.length := by
    cases dom with
    | nil => cases hlast
    | cons x xs => simp
  have heff : stackedModalEffect true true dom (initialStackedModalState true) =
      (dom.set (dom.length - 1) ⟨bz, some "0", some fadeTransition⟩,
       ⟨true, BASE_MODAL_Z_INDEX + Z_INDEX_INCREMENT,
        BASE_MODAL_Z_INDEX + Z_INDEX_INCREMENT - 1, some (dom.length - 1),
        some (jsOrDefault bz (toString BASE_BACKDROP_Z_INDEX)),
        some (jsOrDefault bo "0.5")⟩) := by
    simp only [stackedModalEffect, Bool.not_true, Bool.false_eq_true, if_false,
      adjustBackdrop, hlast, initialStackedModalState]
  have hz1040 : toString BASE_BACKDROP_Z_INDEX = "1040" := by decide
  have hcycle : stackedModalCycle dom =
      dom.set (dom.length - 1)
        ⟨some (jsOrDefault bz "1040"), some (jsOrDefault bo "0.5"),
         some fadeTransition⟩ := by
    unfold stackedModalCycle
    rw [heff]
    simp only [stackedModalCleanup]
    rw [List.getElem?_set_eq_of_lt _ hlen]
    rw [jsTruthy_jsOrDefault bz (toString BASE_BACKDROP_Z_INDEX) (by decide)]
    rw [jsTruthy_jsOrDefault bo "0.5" (by decide)]
    simp only [if_true, List.set_set, hz1040]
  refine ⟨?_, ?_, ?_, ?_, ?_, ?_⟩
  · rw [heff, hz1040]
  · rw [heff]
  · rw [heff]
  · rw [heff]; rfl
  · rw [hcycle]
  · intro z o hz hzne ho hone
    rw [hcycle]
    simp only at hz ho
    rw [hz, ho]
    simp [jsOrDefault, hzne, hone]

/-- Witness for C3 (amended): a single backdrop with z-index '7' and
opacity '0.3' gets them restored after the cycle; only the transition is
left behind. -/
theorem stacked_modal_cycle_spec_witness :
    stackedModalCycle [⟨some "7", some "0.3", none⟩] =
      [⟨some "7", some "0.3", some fadeTransition⟩] := by
  have h := stacked_modal_cycle_spec [⟨some "7", some "0.3", none⟩]
      ⟨some "7", some "0.3", none⟩ rfl
  have h2 := h.2.2.2.2.2 "7" "0.3" rfl (by decide) rfl (by decide)
  simpa using h2

/-- Helper for C5/C6: the measuring loop returns null iff some id has no
element, whatever the accumulators are. -/
theorem measureLoop_none_iff (doc : Doc) (ids : List Nat) :
    ∀ a b c d, measureLoop doc ids a b c d = none ↔
      ∃ i ∈ ids, getElementRect doc i = none := by
  induction ids with
  | nil => intro a b c d; simp [measureLoop]
  | cons i rest ih =>
    intro a b c d
    simp only [measureLoop]
    cases h : getElementRect doc i with
    | none =>
      constructor
      · intro _; exact ⟨i, by simp, h⟩
      · intro _; rfl
    | some r =>
      rw [ih]
      constructor
      · rintro ⟨j, hj, hjp⟩
        exact ⟨j, List.mem_cons_of_mem _ hj, hjp⟩
      · rintro ⟨j, hj, hjp⟩
        rcases List.mem_cons.mp hj with rfl | hj'
        · rw [h] at hjp; cases hjp
        · exact ⟨j, hj', hjp⟩

/-- **C6.** `useMeasurePunchouts` returns null exactly when at least one
id in `elementIds` has no corresponding element in the document; no
partial measurement is produced in that case. -/
theorem punchout_none_iff_missing (doc : Doc) (elementIds : List Nat)
    (offset : Option PunchOutOffset) :
    channelPunchout doc elementIds offset = none ↔
      ∃ i ∈ elementIds, getElementRect doc i = none := by
  rw [← measureLoop_none_iff doc elementIds MAX_SAFE_INTEGER MAX_SAFE_INTEGER
    MIN_SAFE_INTEGER MIN_SAFE_INTEGER]
  unfold channelPunchout
  cases hm : measureLoop doc elementIds MAX_SAFE_INTEGER MAX_SAFE_INTEGER
      MIN_SAFE_INTEGER MIN_SAFE_INTEGER with
  | none => simp
  | some q => rcases q with ⟨a, b, c, d⟩; simp

/-- Counterexample to C5 as stated: a single present element whose
rectangle sits at x = 2^53 — beyond `Number.MAX_SAFE_INTEGER` — makes the
loop's sentinel survive as the reported minimum, so the returned box is
not the smallest bounding box of the rectangles. -/
theorem punchout_not_always_bbox :
    channelPunchout [(0, ⟨2 ^ 53, 0, 1, 1⟩)] [0] none ≠
      claimedBoundingBox [(0, ⟨2 ^ 53, 0, 1, 1⟩)] [0] none := by
  decide

/-- Helper: the source's narrowing `if`s are `min`/`max`. -/
theorem if_lt_eq_min (a x : Int) : (if x < a then x else a) = min a x := by
  rcases le_or_lt a x with h | h
  · rw [if_neg (not_lt.mpr h), min_eq_left h]
  · rw [if_pos h, min_eq_right h.le]

/-- Helper: the source's widening `if`s are `min`/`max`. -/
theorem if_gt_eq_max (a x : Int) : (if x > a then x else a) = max a x := by
  rcases le_or_lt x a with h | h
  · rw [if_neg (not_lt.mpr h), max_eq_left h]
  · rw [if_pos h, max_eq_right h.le]

/-- Helper for C5: when every id resolves to a rectangle, the measuring
loop computes the four accumulator folds over those rectangles. -/
theorem measureLoop_eq_folds (doc : Doc) :
    ∀ (ids : List Nat) (rects : List DomRect),
      lookupRects doc ids = some rects →
      ∀ a b c d, measureLoop doc ids a b c d =
        some (rects.foldl (fun m q => min m q.x) a,
              rects.foldl (fun m q => min m q.y) b,
              rects.foldl (fun m q => max m (q.x + q.width)) c,
              rects.foldl (fun m q => max m (q.y + q.height)) d) := by
  intro ids
  induction ids with
  | nil =>
    intro rects h a b c d
    simp only [lookupRects, Option.some.injEq] at h
    subst h
    rfl
  | cons i rest ih =>
    intro rects h a b c d
    simp only [lookupRects] at h
    cases hg : getElementRect doc i with
    | none => rw [hg] at h; cases h
    | some r =>
      rw [hg] at h
      cases hl : lookupRects doc rest with
      | none => rw [hl] at h; cases h
      | some rs =>
        rw [hl] at h
        simp only [Option.some.injEq] at h
        subst h
        simp only [measureLoop, hg]
        rw [if_lt_eq_min, if_lt_eq_min, if_gt_eq_max, if_gt_eq_max,
          ih rs hl (min a r.x) (min b r.y) (max c (r.x + r.width))
            (max d (r.y + r.height))]
        simp only [List.foldl_cons]

/-- Helper for C5: presence of every element gives a rectangle list. -/
theorem lookupRects_of_present (doc : Doc) :
    ∀ ids : List Nat, (∀ j ∈ ids, ∃ r, getElementRect doc j = some r) →
      ∃ rects, lookupRects doc ids = some rects := by
  intro ids
  induction ids with
  | nil => intro _; exact ⟨[], rfl⟩
  | cons i rest ih =>
    intro h
    obtain ⟨r, hr⟩ := h i (by simp)
    obtain ⟨rs, hrs⟩ := ih (fun j hj => h j (by simp [hj]))
    exact ⟨r :: rs, by simp [lookupRects, hr, hrs]⟩

/-- **C5 (amended).** For a non-empty id list whose elements are all
present in the document and whose rectangles lie within the JavaScript
safe-integer range (so the loop's `MAX_SAFE_INTEGER`/`MIN_SAFE_INTEGER`
sentinels cannot survive), `useMeasurePunchouts` returns the smallest
axis-aligned bounding box covering all the rectangles, shifted by the
optional offset and serialized as pixel strings, with zero offset terms
when no offset is given. -/
theorem punchout_eq_bbox (doc : Doc) (i0 : Nat) (ids : List Nat)
    (offset : Option PunchOutOffset)
    (hpresent : ∀ j ∈ i0 :: ids,
      ∃ r, getElementRect doc j = some r ∧ InSafeRange r) :
    channelPunchout doc (i0 :: ids) offset =
      claimedBoundingBox doc (i0 :: ids) offset := by
  obtain ⟨r0, hr0, hsafe⟩ := hpresent i0 (by simp)
  obtain ⟨rs, hrs⟩ := lookupRects_of_present doc ids
    (fun j hj => ((hpresent j (by simp [hj])).imp (fun r hr => hr.1)))
  have hall : lookupRects doc (i0 :: ids) = some (r0 :: rs) := by
    simp [lookupRects, hr0, hrs]
  obtain ⟨h1, h2, h3, h4, h5, h6, h7, h8⟩ := hsafe
  unfold channelPunchout claimedBoundingBox
  rw [measureLoop_eq_folds doc (i0 :: ids) (r0 :: rs) hall, hall]
  simp only [List.foldl_cons]
  rw [min_eq_right h2, min_eq_right h4, max_eq_right h5, max_eq_right h7,
    min_self, min_self, max_self, max_self]

/-- Witness for C5 (amended) on two elements; the box is the hull of
rectangles (10,20,30,40) and (5,25,2,2). -/
theorem punchout_eq_bbox_witness :
    channelPunchout [(1, ⟨10, 20, 30, 40⟩), (2, ⟨5, 25, 2, 2⟩)] [1, 2] none =
      claimedBoundingBox [(1, ⟨10, 20, 30, 40⟩), (2, ⟨5, 25, 2, 2⟩)] [1, 2] none ∧
    channelPunchout [(1, ⟨10, 20, 30, 40⟩), (2, ⟨5, 25, 2, 2⟩)] [1, 2] none =
      some ⟨"5px", "20px", "35px", "40px"⟩ := by
  constructor
  · apply punchout_eq_bbox
    intro j hj
    rcases List.mem_cons.mp hj with rfl | hj'
    · exact ⟨⟨10, 20, 30, 40⟩, by decide, by decide⟩
    · rcases List.mem_cons.mp hj' with rfl | hj''
      · exact ⟨⟨5, 25, 2, 2⟩, by decide, by decide⟩
      · cases hj''
  · decide

/-- **C7.** When `overlayPunchOut` is non-null, `TourTipBackdrop` renders
the backdrop with a `clip-path` polygon built from exactly 12 vertices;
interpreting the vertices as points of the `W × H` viewport (punch-out at
`(xv, yv)` with size `wv × hv` inside it), the polygon's nonzero-rule
winding number is 0 on the punch-out rectangle's interior — that region is
excluded from the darkened overlay — and −1 (nonzero, covered) at every
viewport-interior point strictly outside the closed rectangle. When
`overlayPunchOut` is null, the backdrop is rendered with no clip-path. -/
theorem tourtip_clip_path (pr : PunchOutProps) (W H xv yv wv hv px py : Int)
    (hx : 0 ≤ xv) (hy : 0 ≤ yv) (hw : 0 < wv) (hh : 0 < hv)
    (hxw : xv + wv ≤ W) (hyh : yv + hv ≤ H)
    (hpx : 0 < px) (hpxW : px < W) (hpy : 0 < py) (hpyH : py < H) :
    tourTipClipPath none = none ∧
    (tourTipVertices pr.x pr.y pr.width pr.height).length = 12 ∧
    tourTipClipPath (some pr) =
      some ("polygon(" ++ String.intercalate ", "
        (tourTipVertices pr.x pr.y pr.width pr.height) ++ ")") ∧
    ((xv < px ∧ px < xv + wv ∧ yv < py ∧ py < yv + hv) →
      windingOfPath (px, py) (tourTipVertexPoints W H xv yv wv hv) = 0) ∧
    ((px < xv ∨ xv + wv < px ∨ py < yv ∨ yv + hv < py) →
      windingOfPath (px, py) (tourTipVertexPoints W H xv yv wv hv) = -1) := by
  refine ⟨rfl, rfl, rfl, ?_, ?_⟩
  · intro hin
    obtain ⟨hi1, hi2, hi3, hi4⟩ := hin
    have hA : edgeCrossing (px, py) (0, 0) (0, H) = 0 := by
      simp only [edgeCrossing, true_and]; split_ifs <;> omega
    have hB : edgeCrossing (px, py) (0, H) (W, H) = 0 := by
      simp only [edgeCrossing, true_and]; split_ifs <;> omega
    have hC : edgeCrossing (px, py) (W, H) (W, 0) = -1 := by
      simp only [edgeCrossing, true_and]; split_ifs <;> omega
    have hD : edgeCrossing (px, py) (W, 0) (xv, 0) = 0 := by
      simp only [edgeCrossing, true_and]; split_ifs <;> omega
    have hE : edgeCrossing (px, py) (xv, 0) (xv, yv) = 0 := by
      simp only [edgeCrossing, true_and]; split_ifs <;> omega
    have hF : edgeCrossing (px, py) (xv, yv) (xv + wv, yv) = 0 := by
      simp only [edgeCrossing, true_and]; split_ifs <;> omega
    have hG : edgeCrossing (px, py) (xv + wv, yv) (xv + wv, yv + hv) = 1 := by
      simp only [edgeCrossing, true_and]; split_ifs <;> omega
    have hH : edgeCrossing (px, py) (xv + wv, yv + hv) (xv, yv + hv) = 0 := by
      simp only [edgeCrossing, true_and]; split_ifs <;> omega
    have hI : edgeCrossing (px, py) (xv, yv + hv) (xv, yv) = 0 := by
      simp only [edgeCrossing, true_and]; split_ifs <;> omega
    have hJ : edgeCrossing (px, py) (xv, yv) (xv, 0) = 0 := by
      simp only [edgeCrossing, true_and]; split_ifs <;> omega
    have hK : edgeCrossing (px, py) (xv, 0) (0, 0) = 0 := by
      simp only [edgeCrossing, true_and]; split_ifs <;> omega
    simp only [tourTipVertexPoints, windingOfPath]
    rw [hA, hB, hC, hD, hE, hF, hG, hH, hI, hJ, hK]
    norm_num
  · intro hout
    have hA : edgeCrossing (px, py) (0, 0) (0, H) = 0 := by
      simp only [edgeCrossing, true_and]; split_ifs <;> omega
    have hB : edgeCrossing (px, py) (0, H) (W, H) = 0 := by
      simp only [edgeCrossing, true_and]; split_ifs <;> omega
    have hC : edgeCrossing (px, py) (W, H) (W, 0) = -1 := by
      simp only [edgeCrossing, true_and]; split_ifs <;> omega
    have hD : edgeCrossing (px, py) (W, 0) (xv, 0) = 0 := by
      simp only [edgeCrossing, true_and]; split_ifs <;> omega
    have hF : edgeCrossing (px, py) (xv, yv) (xv + wv, yv) = 0 := by
      simp only [edgeCrossing, true_and]; split_ifs <;> omega
    have hH : edgeCrossing (px, py) (xv + wv, yv + hv) (xv, yv + hv) = 0 := by
      simp only [edgeCrossing, true_and]; split_ifs <;> omega
    have hK : edgeCrossing (px, py) (xv, 0) (0, 0) = 0 := by
      simp only [edgeCrossing, true_and]; split_ifs <;> omega
    have hEJ : edgeCrossing (px, py) (xv, 0) (xv, yv) +
        edgeCrossing (px, py) (xv, yv) (xv, 0) = 0 := by
      simp only [edgeCrossing, true_and]; split_ifs <;> omega
    have hGI : edgeCrossing (px, py) (xv + wv, yv) (xv + wv, yv + hv) +
        edgeCrossing (px, py) (xv, yv + hv) (xv, yv) = 0 := by
      simp only [edgeCrossing, true_and]; split_ifs <;> omega
    simp only [tourTipVertexPoints, windingOfPath]
    rw [hA, hB, hC, hD, hF, hH, hK]
    linarith [hEJ, hGI]

/-- Witness for C7: viewport 100 × 100, punch-out at (10, 10) of size
20 × 20; the point (15, 15) inside the punch-out has winding number 0 and
the point (50, 50) outside it has winding number −1; the vertex list for
a pixel-string punch-out has 12 entries. -/
theorem tourtip_clip_path_witness :
    windingOfPath (15, 15) (tourTipVertexPoints 100 100 10 10 20 20) = 0 ∧
    windingOfPath (50, 50) (tourTipVertexPoints 100 100 10 10 20 20) = -1 ∧
    (tourTipVertices "10px" "10px" "20px" "20px").length = 12 := by
  have h1 := tourtip_clip_path ⟨"10px", "10px", "20px", "20px"⟩
    100 100 10 10 20 20 15 15 (by decide) (by decide) (by decide) (by decide)
    (by decide) (by decide) (by decide) (by decide) (by decide) (by decide)
  have h2 := tourtip_clip_path ⟨"10px", "10px", "20px", "20px"⟩
    100 100 10 10 20 20 50 50 (by decide) (by decide) (by decide) (by decide)
    (by decide) (by decide) (by decide) (by decide) (by decide) (by decide)
  exact ⟨h1.2.2.2.1 (by decide), h2.2.2.2.2 (by decide), h1.2.1⟩

/-- Counterexample to C8 as stated: the Enter-key handler's auto-close
behaviour IS affected by `handleConfirm`'s absence — with
`autoCloseOnConfirmButton` set, Enter closes the modal when
`handleConfirm` is present and leaves it open when it is absent. -/
theorem enter_close_depends_on_confirm :
    outcomeShow (onEnterKeyDown
        ⟨none, none, some (), none, none, true, true⟩ "Enter" false true) ≠
      outcomeShow (onEnterKeyDown
        ⟨none, none, none, none, none, true, true⟩ "Enter" false true) := by
  decide

/-- **C8 (amended).** Every optional callback prop is guarded by an
absence check before invocation: for every combination of absent optional
callbacks, every handler runs to completion without raising an error, and
the handlers' show-state behaviour is unaffected by the callbacks'
absence except in the Enter-key handler, which auto-closes exactly when
`handleConfirm` is present and `autoCloseOnConfirmButton` is set;
`TourTip`'s `handleJump` is likewise guarded. -/
theorem optional_callbacks_guarded (cfg : ModalCallbacks) (prior : Bool)
    (key : String) (isComposing : Bool) (hj : Option Unit) :
    outcomeShow (onHideCallback cfg) = some false ∧
    outcomeShow (handleCancelCallback cfg prior) =
      some (if cfg.autoCloseOnCancelButton then false else prior) ∧
    outcomeShow (handleConfirmCallback cfg prior) =
      some (if cfg.autoCloseOnConfirmButton then false else prior) ∧
    outcomeShow (onEnterKeyDown cfg key isComposing prior) =
      some (if key = "Enter" ∧ ¬isComposing ∧ cfg.handleConfirm.isSome ∧
              cfg.autoCloseOnConfirmButton then false else prior) ∧
    (tourTipOnJump hj).isOk = true := by
  obtain ⟨oh, hc, hcf, hek, hkd, ac, acc⟩ := cfg
  refine ⟨?_, ?_, ?_, ?_, ?_⟩
  · cases oh <;> rfl
  · cases ac <;> cases oh <;> cases hc <;> rfl
  · cases acc <;> cases oh <;> cases hcf <;> rfl
  · by_cases hk : key = "Enter"
    · subst hk
      cases isComposing <;> cases hcf <;> cases acc <;> cases oh <;>
        cases hek <;> cases hkd <;> rfl
    · cases hkd <;> simp [onEnterKeyDown, outcomeShow, callOptional, hk,
        Except.bind]
  · cases hj <;> rfl

end Spec2Proof
